import Mathlib

/-!
Shallow embedding of the python-lastfm entity layer (src/lastfm/user.py,
src/lastfm/venue.py) together with the cross-cutting mechanisms the spec
calls the core (identity registry, property cache, auth gate, lazy
depagination).  The files base.py, mixins.py, lazylist.py and decorators.py
are not part of the given sources, so those mechanisms are modelled from the
spec's words; everything else is translated from user.py / venue.py.
-/

namespace Lastfm

/-- The error hierarchy of lastfm.error, restricted to the constructors the
translated code raises or catches.  `operationFailed` stands for a generic
`LastfmError` coming out of a fetch (the spec's FetchError); every
constructor is a subclass of LastfmError in the source, so a python
`except LastfmError` catches all of them. -/
inductive LastfmError where
  | invalidParameters (msg : String)
  | authenticationRequired
  | authenticationFailed
  | operationFailed
  deriving Repr, DecidableEq

/-- Python's builtin `hash` on strings, modelled as an injective
deterministic embedding (the registry only needs determinism, and the
spec's uniqueness invariant needs injectivity on the identity field). -/
def pyHash (s : String) : String := s

/-- user.py `User._hash_func`: `hash(kwds['name'])`, raising
InvalidParametersError when the `name` keyword is absent. -/
def User._hash_func (name : Option String) : Except LastfmError String :=
  match name with
  | some n => .ok (pyHash n)
  | none => .error (.invalidParameters "name has to be provided for hashing")

/-- venue.py `Venue._hash_func`: `hash(kwds['url'])`, raising
InvalidParametersError when the `url` keyword is absent. -/
def Venue._hash_func (url : Option String) : Except LastfmError String :=
  match url with
  | some u => .ok (pyHash u)
  | none => .error (.invalidParameters "url has to be provided for hashing")

/-- Python's builtin `hash` on ints (hash of a small int is itself). -/
def pyHashInt (n : Int) : Int := n

/-- user.py `User.Playlist._hash_func`: `hash(kwds['id'])`, raising
InvalidParametersError when the `id` keyword is absent. -/
def Playlist._hash_func (id : Option Int) : Except LastfmError Int :=
  match id with
  | some i => .ok (pyHashInt i)
  | none => .error (.invalidParameters "id has to be provided for hashing")

/-- The fields of a User relevant to comparison: `name` is the identity
field; the others are transient attributes carried by the instance. -/
structure User where
  name : String
  real_name : Option String := none
  url : Option String := none
  playcount : Option Nat := none
  deriving Repr, DecidableEq

/-- The fields of a Venue relevant to comparison: `url` is the identity
field (it is what `Venue._hash_func` hashes); `name` is not. -/
structure Venue where
  id : Option Nat := none
  name : String
  url : String
  location : Option String := none
  deriving Repr, DecidableEq

/-- user.py `User.__eq__`: `self.name == other.name`. -/
def User.eq (a b : User) : Bool := a.name == b.name

/-- user.py `User.__lt__`: `self.name < other.name`. -/
def User.lt (a b : User) : Bool := decide (a.name < b.name)

/-- venue.py `Venue.__eq__`: `self.url == other.url`. -/
def Venue.eq (a b : Venue) : Bool := a.url == b.url

/-- venue.py `Venue.__lt__`: `self.name < other.name` (the name, not the
identity field `url`). -/
def Venue.lt (a b : Venue) : Bool := decide (a.name < b.name)

/-- user.py `User.authenticated`: wraps `api.get_authenticated_user()`
(whose outcome is passed in as an `Except`), returns `auth_user == self`
on success and `False` when the lookup raises AuthenticationFailedError;
any other error propagates. -/
def User.authenticated (getAuthenticatedUser : Except LastfmError User)
    (self : User) : Except LastfmError Bool :=
  match getAuthenticatedUser with
  | .ok u => .ok (User.eq u self)
  | .error .authenticationFailed => .ok false
  | .error e => .error e

/-- Is an `authenticated` outcome the AuthenticationFailedError being
raised to the caller? -/
def raisesAuthenticationFailed : Except LastfmError Bool → Bool
  | .error .authenticationFailed => true
  | _ => false

/-- Modelled from the spec: the flyweight identity registry of base.py /
mixins.py (not among the given sources).  Entries map an identity key
`(type_tag, hash)` to the id of the registered instance; `nextId` numbers
fresh instances and stands for object identity (two calls returning the
same id return reference-equal instances). -/
structure Registry where
  entries : List ((String × String) × Nat)
  nextId : Nat
  deriving Repr, DecidableEq

def Registry.empty : Registry := ⟨[], 0⟩

/-- Look an identity key up in the registry. -/
def Registry.lookup (r : Registry) (key : String × String) : Option Nat :=
  (r.entries.find? (fun e => decide (e.1 = key))).map (·.2)

/-- Modelled from the spec: `get_or_create(type_tag, identity_fields,
builder)` returns the registered instance for the key when one exists,
otherwise registers a fresh instance (id `nextId`) and returns it. -/
def registerOrGet (r : Registry) (typeTag hash : String) : Registry × Nat :=
  match r.lookup (typeTag, hash) with
  | some i => (r, i)
  | none => (⟨((typeTag, hash), r.nextId) :: r.entries, r.nextId + 1⟩, r.nextId)

/-- A User construction call: hash the identity field with
`User._hash_func`, then consult the registry under the `"User"` tag. -/
def User.getOrCreate (r : Registry) (name : Option String) :
    Except LastfmError (Registry × Nat) :=
  (User._hash_func name).map (fun h => registerOrGet r "User" h)

/-- A Venue construction call: hash the identity field with
`Venue._hash_func`, then consult the registry under the `"Venue"` tag. -/
def Venue.getOrCreate (r : Registry) (url : Option String) :
    Except LastfmError (Registry × Nat) :=
  (Venue._hash_func url).map (fun h => registerOrGet r "Venue" h)

/-- Registry sanity: instance ids are pairwise distinct, identity keys are
pairwise distinct, and every registered id is below `nextId`. -/
def Registry.wf (r : Registry) : Prop :=
  (r.entries.map (·.2)).Nodup ∧ (r.entries.map (·.1)).Nodup ∧
    ∀ e ∈ r.entries, e.2 < r.nextId

theorem Registry.wf_empty : Registry.empty.wf :=
  ⟨List.nodup_nil, List.nodup_nil, by simp [Registry.empty]⟩

theorem Registry.lookup_some_mem {r : Registry} {k : String × String} {i : Nat}
    (h : r.lookup k = some i) : ∃ e ∈ r.entries, e.1 = k ∧ e.2 = i := by
  cases hf : r.entries.find? (fun e => decide (e.1 = k)) with
  | none => simp [Registry.lookup, hf] at h
  | some e =>
    simp only [Registry.lookup, hf, Option.map_some] at h
    refine ⟨e, List.mem_of_find?_eq_some hf, ?_, by simpa using h⟩
    have := List.find?_some hf
    simpa using this

theorem Registry.lookup_lt {r : Registry} (hwf : r.wf) {k : String × String}
    {i : Nat} (h : r.lookup k = some i) : i < r.nextId := by
  obtain ⟨e, hmem, _, hid⟩ := Registry.lookup_some_mem h
  exact hid ▸ hwf.2.2 e hmem

theorem Registry.lookup_inj {r : Registry} (hwf : r.wf)
    {k₁ k₂ : String × String} {i₁ i₂ : Nat} (hk : k₁ ≠ k₂)
    (h₁ : r.lookup k₁ = some i₁) (h₂ : r.lookup k₂ = some i₂) : i₁ ≠ i₂ := by
  obtain ⟨e₁, hm₁, hke₁, hie₁⟩ := Registry.lookup_some_mem h₁
  obtain ⟨e₂, hm₂, hke₂, hie₂⟩ := Registry.lookup_some_mem h₂
  intro hcontra
  apply hk
  have hne : e₁.2 = e₂.2 := by rw [hie₁, hie₂, hcontra]
  have := List.inj_on_of_nodup_map hwf.1 hm₁ hm₂ hne
  rw [← hke₁, ← hke₂, this]

/-- After a construction, looking the same key up finds the very instance
that construction returned. -/
theorem registerOrGet_lookup_self (r : Registry) (t h : String) :
    (registerOrGet r t h).1.lookup (t, h) = some (registerOrGet r t h).2 := by
  unfold registerOrGet
  cases hl : r.lookup (t, h) with
  | some i => simp [hl]
  | none => simp [hl, Registry.lookup, List.find?_cons_of_pos]

/-- Constructing the same identity twice returns the same instance and
leaves the registry unchanged. -/
theorem registerOrGet_idem (r : Registry) (t h : String) :
    registerOrGet (registerOrGet r t h).1 t h = registerOrGet r t h := by
  have hl := registerOrGet_lookup_self r t h
  rw [registerOrGet, hl]

theorem registerOrGet_wf {r : Registry} (hwf : r.wf) (t h : String) :
    (registerOrGet r t h).1.wf := by
  unfold registerOrGet
  cases hl : r.lookup (t, h) with
  | some i => exact hwf
  | none =>
    refine ⟨?_, ?_, ?_⟩
    · simp only [List.map_cons, List.nodup_cons]
      constructor
      · intro hmem
        obtain ⟨e, hmem, hid⟩ := List.mem_map.mp hmem
        exact absurd (hid ▸ hwf.2.2 e hmem) (Nat.lt_irrefl _)
      · exact hwf.1
    · simp only [List.map_cons, List.nodup_cons]
      constructor
      · intro hmem
        obtain ⟨e, hmem, hkey⟩ := List.mem_map.mp hmem
        have : r.entries.find? (fun e => decide (e.1 = (t, h))) = none := by
          simpa [Registry.lookup] using hl
        have := List.find?_eq_none.mp this e hmem
        simp [hkey] at this
      · exact hwf.2.1
    · intro e hmem
      rcases List.mem_cons.mp hmem with he | he
      · subst he; exact Nat.lt_succ_self _
      · exact Nat.lt_succ_of_lt (hwf.2.2 e he)

/-- Constructing two distinct identities (under the same type tag, one
after the other) returns distinct instances. -/
theorem registerOrGet_ne {r : Registry} (hwf : r.wf) (t : String)
    {h₁ h₂ : String} (hne : h₁ ≠ h₂) :
    (registerOrGet (registerOrGet r t h₁).1 t h₂).2 ≠ (registerOrGet r t h₁).2 := by
  have hkey : (t, h₂) ≠ (t, h₁) := by
    intro hcontra
    have hsnd : h₂ = h₁ := congrArg Prod.snd hcontra
    exact hne hsnd.symm
  have hwf₁ : (registerOrGet r t h₁).1.wf := registerOrGet_wf hwf t h₁
  have hself := registerOrGet_lookup_self r t h₁
  rw [registerOrGet]
  cases hl : (registerOrGet r t h₁).1.lookup (t, h₂) with
  | some i₂ =>
    simpa using Registry.lookup_inj hwf₁ hkey hl hself
  | none =>
    simp only []
    have hlt := Registry.lookup_lt hwf₁ hself
    exact Nat.ne_of_gt hlt

/-- Claim C1: for every pair of construction calls with the same type tag
and equal identity fields (two User constructions with equal name, two
Venue constructions with equal url), the flyweight registry returns
reference-equal instances (the same instance id, and the registry is left
unchanged by the second call); for unequal identity fields it returns
distinct instances.  Construction hashes the identity field with the
source's `_hash_func`. -/
theorem claim_C1_flyweight_identity (r : Registry) (hwf : r.wf) (n₁ n₂ : String) :
    (User.getOrCreate r (some n₁) = Except.ok (registerOrGet r "User" (pyHash n₁))) ∧
    (Venue.getOrCreate r (some n₁) = Except.ok (registerOrGet r "Venue" (pyHash n₁))) ∧
    (n₁ = n₂ →
      registerOrGet (registerOrGet r "User" (pyHash n₁)).1 "User" (pyHash n₂) =
        registerOrGet r "User" (pyHash n₁)) ∧
    (n₁ ≠ n₂ →
      (registerOrGet (registerOrGet r "User" (pyHash n₁)).1 "User" (pyHash n₂)).2 ≠
        (registerOrGet r "User" (pyHash n₁)).2) ∧
    (n₁ = n₂ →
      registerOrGet (registerOrGet r "Venue" (pyHash n₁)).1 "Venue" (pyHash n₂) =
        registerOrGet r "Venue" (pyHash n₁)) ∧
    (n₁ ≠ n₂ →
      (registerOrGet (registerOrGet r "Venue" (pyHash n₁)).1 "Venue" (pyHash n₂)).2 ≠
        (registerOrGet r "Venue" (pyHash n₁)).2) := by
  refine ⟨rfl, rfl, ?_, ?_, ?_, ?_⟩
  · intro he; subst he; exact registerOrGet_idem ..
  · intro hne; exact registerOrGet_ne hwf _ (fun hcontra => hne hcontra)
  · intro he; subst he; exact registerOrGet_idem ..
  · intro hne; exact registerOrGet_ne hwf _ (fun hcontra => hne hcontra)

/-- Witness for claim C1 at a concrete input: the empty registry is
well-formed, and constructing "alice" then "bob" yields distinct
instances while re-constructing "alice" yields the same instance. -/
theorem claim_C1_flyweight_identity_witness :
    Registry.empty.wf ∧
    (registerOrGet (registerOrGet Registry.empty "User" (pyHash "alice")).1 "User"
        (pyHash "alice") = registerOrGet Registry.empty "User" (pyHash "alice")) ∧
    ((registerOrGet (registerOrGet Registry.empty "User" (pyHash "alice")).1 "User"
        (pyHash "bob")).2 ≠ (registerOrGet Registry.empty "User" (pyHash "alice")).2) :=
  ⟨Registry.wf_empty,
   (claim_C1_flyweight_identity Registry.empty Registry.wf_empty "alice" "alice").2.2.1 rfl,
   (claim_C1_flyweight_identity Registry.empty Registry.wf_empty "alice" "bob").2.2.2.1
     (by decide)⟩

/-- Claim C7: every identity-hash computation whose required identity field
is absent from the keyword arguments raises InvalidParametersError rather
than hashing a missing value; with the field present, it hashes it. -/
theorem claim_C7_missing_identity_field_errors :
    (User._hash_func none =
      Except.error (LastfmError.invalidParameters "name has to be provided for hashing")) ∧
    (Venue._hash_func none =
      Except.error (LastfmError.invalidParameters "url has to be provided for hashing")) ∧
    (Playlist._hash_func none =
      Except.error (LastfmError.invalidParameters "id has to be provided for hashing")) ∧
    (∀ n, User._hash_func (some n) = Except.ok (pyHash n)) ∧
    (∀ u, Venue._hash_func (some u) = Except.ok (pyHash u)) ∧
    (∀ i, Playlist._hash_func (some i) = Except.ok (pyHashInt i)) :=
  ⟨rfl, rfl, rfl, fun _ => rfl, fun _ => rfl, fun _ => rfl⟩

/-- Claim C8 counterexample: Venue's `<` compares names, not the identity
field url, so two pairs of venues with the same pairs of urls order
differently when the names differ — the relative order is not a function
of the identity fields. -/
theorem claim_C8_identity_order_counterexample :
    Venue.lt ⟨none, "b", "u", none⟩ ⟨none, "a", "v", none⟩ = false ∧
    Venue.lt ⟨none, "a", "u", none⟩ ⟨none, "b", "v", none⟩ = true ∧
    (Venue.mk none "b" "u" none).url = (Venue.mk none "a" "u" none).url ∧
    (Venue.mk none "a" "v" none).url = (Venue.mk none "b" "v" none).url := by
  have hba : ¬ (("b" : String) < "a") := by
    rw [String.lt_iff_toList_lt]; decide
  have hab : (("a" : String) < "b") := by
    rw [String.lt_iff_toList_lt]; decide
  refine ⟨?_, ?_, rfl, rfl⟩
  · simp only [Venue.lt]; exact decide_eq_false hba
  · simp only [Venue.lt]; exact decide_eq_true hab

/-- Claim C8 (amended): equality of entities is purely a function of the
identity fields (name for User, url for Venue), and entities with equal
identity fields are equal whatever their other attributes; User's `<` is
likewise purely a function of the name, but Venue's `<` is a function of
the venue name, which is not Venue's identity field. -/
theorem claim_C8_identity_comparisons (a a' b b' : User) (v v' w w' : Venue)
    (hu₁ : a.name = a'.name) (hu₂ : b.name = b'.name)
    (hv₁ : v.url = v'.url) (hv₂ : w.url = w'.url)
    (hvn₁ : v.name = v'.name) (hvn₂ : w.name = w'.name) :
    (a.name = b.name → User.eq a b = true) ∧
    (v.url = w.url → Venue.eq v w = true) ∧
    User.eq a b = User.eq a' b' ∧
    User.lt a b = User.lt a' b' ∧
    Venue.eq v w = Venue.eq v' w' ∧
    Venue.lt v w = Venue.lt v' w' := by
  refine ⟨?_, ?_, ?_, ?_, ?_, ?_⟩ <;>
    simp [User.eq, User.lt, Venue.eq, Venue.lt, hu₁, hu₂, hv₁, hv₂, hvn₁, hvn₂]

/-- Witness for claim C8 at concrete entities differing in everything but
the compared fields. -/
theorem claim_C8_identity_comparisons_witness :
    (User.mk "sam" none none (some 3)).name = (User.mk "sam" (some "Sam") none none).name ∧
    ((User.mk "sam" none none (some 3)).name = (User.mk "sam" none (some "x") none).name →
      User.eq (User.mk "sam" none none (some 3)) (User.mk "sam" none (some "x") none) = true) :=
  ⟨rfl,
   (claim_C8_identity_comparisons
      (User.mk "sam" none none (some 3)) (User.mk "sam" (some "Sam") none none)
      (User.mk "sam" none (some "x") none) (User.mk "sam" none none none)
      (Venue.mk none "v" "u" none) (Venue.mk (some 1) "v" "u" none)
      (Venue.mk none "w" "z" none) (Venue.mk (some 2) "w" "z" none)
      rfl rfl rfl rfl rfl rfl).1⟩

/-- Claim C10: reading `User.authenticated` never raises
AuthenticationFailedError — that failure from obtaining the authenticated
user is caught and mapped to `false`; on success the property returns
exactly whether the authenticated principal has the same name. -/
theorem claim_C10_authenticated_never_fails (r : Except LastfmError User) (self : User) :
    raisesAuthenticationFailed (User.authenticated r self) = false ∧
    User.authenticated (Except.error LastfmError.authenticationFailed) self =
      Except.ok false ∧
    (∀ u, User.authenticated (Except.ok u) self = Except.ok (u.name == self.name)) := by
  refine ⟨?_, rfl, fun u => rfl⟩
  cases r with
  | ok u => rfl
  | error e => cases e <;> rfl

/-- Modelled from the spec: one slot of the per-instance property cache
(decorators.py `cached_property`, not among the given sources): the stored
value, plus an instrumentation counter of how many times the underlying
compute function has been invoked for this slot. -/
structure CachedSlot (α : Type) where
  value : Option α
  computeCount : Nat
  deriving Repr, DecidableEq

def CachedSlot.fresh {α : Type} : CachedSlot α := ⟨none, 0⟩

/-- Modelled from the spec: a read through the property cache — return the
stored value when present; otherwise invoke `compute`, store the result
and return it. -/
def cachedRead {α : Type} (compute : Unit → α) (s : CachedSlot α) :
    α × CachedSlot α :=
  match s.value with
  | some v => (v, s)
  | none => (compute (), ⟨some (compute ()), s.computeCount + 1⟩)

/-- `n` consecutive reads through the cache. -/
def cachedReadN {α : Type} (compute : Unit → α) : Nat → CachedSlot α → CachedSlot α
  | 0, s => s
  | n + 1, s => cachedReadN compute n (cachedRead compute s).2

theorem cachedReadN_filled {α : Type} (compute : Unit → α) (v : α) (c n : Nat) :
    cachedReadN compute n ⟨some v, c⟩ = ⟨some v, c⟩ := by
  induction n with
  | zero => rfl
  | succ n ih => simpa [cachedReadN, cachedRead] using ih

/-- Claim C5: reading a cached property any number of times (at least
once) without an intervening invalidation invokes the compute function
exactly once; every read on a filled slot returns the stored value and
leaves the slot untouched. -/
theorem claim_C5_cache_idempotence {α : Type} (compute : Unit → α) (n : Nat)
    (hn : 1 ≤ n) :
    cachedReadN compute n CachedSlot.fresh = ⟨some (compute ()), 1⟩ ∧
    (∀ (v : α) (s : CachedSlot α), s.value = some v → cachedRead compute s = (v, s)) ∧
    (cachedRead compute CachedSlot.fresh).1 = compute () := by
  refine ⟨?_, ?_, rfl⟩
  · obtain ⟨m, rfl⟩ := Nat.exists_eq_add_of_le hn
    rw [Nat.add_comm]
    show cachedReadN compute (m + 1) CachedSlot.fresh = _
    simp only [cachedReadN, cachedRead, CachedSlot.fresh]
    exact cachedReadN_filled ..
  · intro v s hs
    cases s with
    | mk val c => cases hs; rfl

/-- Witness for claim C5: two reads of a stub compute function invoke it
exactly once. -/
theorem claim_C5_cache_idempotence_witness :
    cachedReadN (fun _ => (42 : Nat)) 2 CachedSlot.fresh = ⟨some 42, 1⟩ :=
  (claim_C5_cache_idempotence (fun _ => (42 : Nat)) 2 (by decide)).1

/-- The cached-property slots of a `User.Library` instance (user.py
`User.Library`): the three depaginated collections `tracks`, `albums` and
`artists`, each stored under its own property name. -/
structure LibraryState (α β γ : Type) where
  tracks : CachedSlot α
  albums : CachedSlot β
  artists : CachedSlot γ
  deriving Repr, DecidableEq

/-- user.py `User.Library.tracks` (@cached_property): read through the
`tracks` slot. -/
def Library.readTracks {α β γ : Type} (compute : Unit → α)
    (s : LibraryState α β γ) : α × LibraryState α β γ :=
  let r := cachedRead compute s.tracks
  (r.1, { s with tracks := r.2 })

/-- user.py `User.Library.albums` (@cached_property): read through the
`albums` slot. -/
def Library.readAlbums {α β γ : Type} (compute : Unit → β)
    (s : LibraryState α β γ) : β × LibraryState α β γ :=
  let r := cachedRead compute s.albums
  (r.1, { s with albums := r.2 })

/-- user.py `User.Library.artists` (@cached_property): read through the
`artists` slot. -/
def Library.readArtists {α β γ : Type} (compute : Unit → γ)
    (s : LibraryState α β γ) : γ × LibraryState α β γ :=
  let r := cachedRead compute s.artists
  (r.1, { s with artists := r.2 })

/-- user.py `User.Library.add_track` (@authenticate): with a usable
session, post the mutation and then clear the stored value of the
`tracks` property only (`self._tracks = None`); without one, raise
AuthenticationRequiredError.  The instrumentation counter is not part of
the instance and is kept. -/
def Library.add_track {α β γ : Type} (hasSession : Bool)
    (s : LibraryState α β γ) : Except LastfmError (LibraryState α β γ) :=
  if hasSession then
    .ok { s with tracks := ⟨none, s.tracks.computeCount⟩ }
  else .error .authenticationRequired

/-- Claim C6: after `add_track` succeeds (declaring invalidation of the
`tracks` property), the next read of `tracks` invokes the compute function
again and returns its fresh result, while the cached `albums` and
`artists` values are untouched: they are returned as stored, without
recomputation and without any state change. -/
theorem claim_C6_invalidation_frame {α β γ : Type} (computeT : Unit → α)
    (computeA : Unit → β) (computeR : Unit → γ)
    (s s₁ : LibraryState α β γ) (tv : α) (av : β) (rv : γ)
    (htv : s.tracks.value = some tv) (hav : s.albums.value = some av)
    (hrv : s.artists.value = some rv)
    (hadd : Library.add_track true s = Except.ok s₁) :
    s₁.tracks.value = none ∧
    (Library.readTracks computeT s₁).1 = computeT () ∧
    (Library.readTracks computeT s₁).2.tracks =
      ⟨some (computeT ()), s.tracks.computeCount + 1⟩ ∧
    s₁.albums = s.albums ∧
    s₁.artists = s.artists ∧
    Library.readAlbums computeA s₁ = (av, s₁) ∧
    Library.readArtists computeR s₁ = (rv, s₁) := by
  have hs₁ : s₁ = { s with tracks := ⟨none, s.tracks.computeCount⟩ } := by
    simpa [Library.add_track] using hadd.symm
  subst hs₁
  refine ⟨rfl, rfl, rfl, rfl, rfl, ?_, ?_⟩
  · cases s with
    | mk t alb art =>
      cases alb with
      | mk aval ac => cases hav; rfl
  · cases s with
    | mk t alb art =>
      cases art with
      | mk rval rc => cases hrv; rfl

/-- Witness for claim C6 at a concrete library instance whose three
collections are cached. -/
theorem claim_C6_invalidation_frame_witness :
    ((⟨⟨some 1, 1⟩, ⟨some 2, 1⟩, ⟨some 3, 1⟩⟩ : LibraryState Nat Nat Nat).tracks.value
        = some 1) ∧
    (Library.readTracks (fun _ => (7 : Nat))
      (⟨⟨none, 1⟩, ⟨some 2, 1⟩, ⟨some 3, 1⟩⟩ : LibraryState Nat Nat Nat)).1 = 7 := by
  refine ⟨rfl, ?_⟩
  exact (claim_C6_invalidation_frame (fun _ => (7 : Nat)) (fun _ => (9 : Nat))
    (fun _ => (11 : Nat)) ⟨⟨some 1, 1⟩, ⟨some 2, 1⟩, ⟨some 3, 1⟩⟩
    ⟨⟨none, 1⟩, ⟨some 2, 1⟩, ⟨some 3, 1⟩⟩ 1 2 3 rfl rfl rfl rfl).2.1

/-- A track entity, as an item of the track collections. -/
structure Track where
  name : String
  deriving Repr, DecidableEq

/-- The part of a User instance the top-item accessors touch: the
`top_tracks` cached-property slot, plus an instrumentation counter of the
collaborator fetch calls (`_fetch_data`) the instance has issued. -/
structure UserPropState where
  topTracksCache : Option (List Track)
  fetchCount : Nat
  deriving Repr, DecidableEq

/-- user.py `User.get_top_tracks`: fetch and parse the collection — one
collaborator fetch per call. -/
def getTopTracks (api : Unit → List Track) (s : UserPropState) :
    List Track × UserPropState :=
  (api (), { s with fetchCount := s.fetchCount + 1 })

/-- user.py `User.top_tracks` (@cached_property over `get_top_tracks`). -/
def topTracks (api : Unit → List Track) (s : UserPropState) :
    List Track × UserPropState :=
  match s.topTracksCache with
  | some l => (l, s)
  | none =>
    let r := getTopTracks api s
    (r.1, { r.2 with topTracksCache := some r.1 })

/-- user.py `User.top_track` (@top_property("top_tracks")): element 0 of
the named backing collection, `None` when it is empty
(`len(lst) and lst[0] or None`). -/
def topTrack (api : Unit → List Track) (s : UserPropState) :
    Option Track × UserPropState :=
  let r := topTracks api s
  (r.1.head?, r.2)

/-- user.py `User.get_recent_tracks`: fetches with `no_cache = True` — one
collaborator fetch per call, bypassing any response cache. -/
def getRecentTracks (api : Unit → List Track) (s : UserPropState) :
    List Track × UserPropState :=
  (api (), { s with fetchCount := s.fetchCount + 1 })

/-- user.py `User.recent_tracks`: a plain (non-cached) property that calls
`get_recent_tracks` anew on every read. -/
def recentTracks (api : Unit → List Track) (s : UserPropState) :
    List Track × UserPropState :=
  getRecentTracks api s

/-- user.py `User.most_recent_track` (@top_property("recent_tracks")):
element 0 of the backing collection `recent_tracks`. -/
def mostRecentTrack (api : Unit → List Track) (s : UserPropState) :
    Option Track × UserPropState :=
  let r := recentTracks api s
  (r.1.head?, r.2)

/-- Claim C9 counterexample: reading `most_recent_track` twice issues two
collaborator fetches (its backing collection `recent_tracks` is not
cached and refetches on every read), while the cached accessor
`top_track` read twice issues exactly one — so not every top-item
accessor reads an already-cached collection without a separate fetch. -/
theorem claim_C9_top_item_counterexample :
    ((mostRecentTrack (fun _ => [⟨"t"⟩])
        (mostRecentTrack (fun _ => [⟨"t"⟩]) ⟨none, 0⟩).2).2).fetchCount = 2 ∧
    ((topTrack (fun _ => [⟨"t"⟩])
        (topTrack (fun _ => [⟨"t"⟩]) ⟨none, 0⟩).2).2).fetchCount = 1 :=
  ⟨rfl, rfl⟩

/-- Claim C9 (amended): a top-item accessor over a cached collection
(`top_track` over `top_tracks`) is a thin read of element 0: with the
collection already cached it returns the head (None when empty) and
changes nothing — no fetch; its first read performs exactly the one fetch
that populates the cache.  `most_recent_track`, by contrast, is backed by
the non-cached `recent_tracks` property, so every read performs a fresh
fetch of the collection and returns its element 0. -/
theorem claim_C9_top_item_accessors (api : Unit → List Track)
    (s : UserPropState) (l : List Track) (hc : s.topTracksCache = some l) :
    topTrack api s = (l.head?, s) ∧
    (l = [] → (topTrack api s).1 = none) ∧
    (∀ t ts, l = t :: ts → (topTrack api s).1 = some t) ∧
    (∀ c, topTrack api ⟨none, c⟩ = ((api ()).head?, ⟨some (api ()), c + 1⟩)) ∧
    (∀ s' : UserPropState, mostRecentTrack api s' =
      ((api ()).head?, ⟨s'.topTracksCache, s'.fetchCount + 1⟩)) := by
  have hmain : topTrack api s = (l.head?, s) := by
    cases s with
    | mk cache c => cases hc; rfl
  refine ⟨hmain, ?_, ?_, fun c => rfl, fun s' => rfl⟩
  · intro hl; rw [hmain, hl]; rfl
  · intro t ts hl; rw [hmain, hl]; rfl

/-- Witness for claim C9 at a concrete cached collection. -/
theorem claim_C9_top_item_accessors_witness :
    topTrack (fun _ => []) ⟨some [⟨"a"⟩, ⟨"b"⟩], 1⟩ =
      (some ⟨"a"⟩, ⟨some [⟨"a"⟩, ⟨"b"⟩], 1⟩) :=
  (claim_C9_top_item_accessors (fun _ => []) ⟨some [⟨"a"⟩, ⟨"b"⟩], 1⟩
    [⟨"a"⟩, ⟨"b"⟩] rfl).1

/-- One raw page of a paged listing, as the collaborator's fetch returns
it: the `totalPages` attribute of the page's root container, and the
parsed item records of that page. -/
structure Page (α : Type) where
  totalPages : Nat
  items : List α
  deriving Repr, DecidableEq

/-- The page-cursor state of one depaginated lazy sequence (the page loop
of venue.py `Venue.get_past_events`; the element cache is the lazylist's,
modelled from the spec): the items produced so far, the log of pages
fetched so far in order, the next page to request, the total page count
once learned from page 1's metadata, and whether the producer is
exhausted. -/
structure DepagState (α : Type) where
  cached : List α
  fetchLog : List Nat
  next : Nat
  total : Option Nat
  exhausted : Bool
  deriving Repr, DecidableEq

def DepagState.init {α : Type} : DepagState α := ⟨[], [], 1, none, false⟩

/-- One pull on the depaginating producer: nothing once exhausted; the
first pull fetches page 1 and learns `totalPages` from that page's
metadata; each later pull fetches the next page; the sequence is
exhausted exactly when the next page number passes the total. -/
def depagStep {α : Type} (fetch : Nat → Page α) (s : DepagState α) : DepagState α :=
  if s.exhausted then s
  else
    match s.total with
    | none =>
      let pg := fetch 1
      ⟨s.cached ++ pg.items, s.fetchLog ++ [1], 2, some pg.totalPages,
        decide (pg.totalPages < 2)⟩
    | some t =>
      let pg := fetch s.next
      ⟨s.cached ++ pg.items, s.fetchLog ++ [s.next], s.next + 1, some t,
        decide (t < s.next + 1)⟩

/-- `n` pulls on the depaginating producer. -/
def depagRun {α : Type} (fetch : Nat → Page α) : Nat → DepagState α → DepagState α
  | 0, s => s
  | n + 1, s => depagRun fetch n (depagStep fetch s)

/-- Modelled from the spec: `as_list()` forces full materialization of the
depaginated sequence (`totalPages + 1` pulls always exhaust it). -/
def depagAsList {α : Type} (fetch : Nat → Page α) : DepagState α :=
  depagRun fetch ((fetch 1).totalPages + 1) DepagState.init

/-- The items of pages `first, …, first + count - 1` concatenated in page
order then within-page order. -/
def pageJoin {α : Type} (fetch : Nat → Page α) (first count : Nat) : List α :=
  (List.range' first count).flatMap (fun p => (fetch p).items)

theorem depagRun_succ {α : Type} (fetch : Nat → Page α) (n : Nat) (s : DepagState α) :
    depagRun fetch (n + 1) s = depagStep fetch (depagRun fetch n s) := by
  induction n generalizing s with
  | zero => rfl
  | succ n ih =>
    show depagRun fetch (n + 1) (depagStep fetch s) = _
    rw [ih (depagStep fetch s)]
    rfl

theorem depagStep_exhausted {α : Type} (fetch : Nat → Page α) {s : DepagState α}
    (h : s.exhausted = true) : depagStep fetch s = s := by
  simp [depagStep, h]

theorem depagRun_exhausted {α : Type} (fetch : Nat → Page α) (n : Nat)
    {s : DepagState α} (h : s.exhausted = true) : depagRun fetch n s = s := by
  induction n with
  | zero => rfl
  | succ n ih =>
    show depagRun fetch n (depagStep fetch s) = s
    rw [depagStep_exhausted fetch h, ih]

/-- Closed form of the cursor after `n ≥ 1` pulls, while `n` does not pass
the total: pages 1..n have been fetched once each, in order, and their
items are cached in page order. -/
theorem depagRun_closed_form {α : Type} (fetch : Nat → Page α) (n : Nat)
    (h1 : 1 ≤ n) (hn : n ≤ (fetch 1).totalPages) :
    depagRun fetch n DepagState.init =
      ⟨pageJoin fetch 1 n, List.range' 1 n, n + 1, some (fetch 1).totalPages,
        decide ((fetch 1).totalPages < n + 1)⟩ := by
  induction n with
  | zero => exact absurd h1 (by decide)
  | succ n ih =>
    cases Nat.eq_or_lt_of_le h1 with
    | inl h0 =>
      cases (Nat.succ_injective h0.symm : n = 0)
      show depagStep fetch DepagState.init = _
      simp [depagStep, DepagState.init, pageJoin, List.range']
    | inr hlt =>
      have hn1 : 1 ≤ n := Nat.lt_succ_iff.mp hlt
      have hnP : n ≤ (fetch 1).totalPages := Nat.le_of_succ_le hn
      have hnotex : ¬ ((fetch 1).totalPages < n + 1) := Nat.not_lt.mpr hn
      rw [depagRun_succ, ih hn1 hnP]
      simp only [depagStep, decide_eq_true_eq, hnotex, decide_eq_false hnotex,
        Bool.false_eq_true, if_false]
      rw [List.range'_concat]
      simp [pageJoin, List.range'_concat, Nat.add_comm]

/-- Claim C2: for every depaginated listing (venue.py
`Venue.get_past_events`, user.py `User.get_past_events`) over a fetch
function with `P = totalPages ≥ 1` pages: full materialization caches all
pages' items in page order then within-page order; the fetch log is
exactly `[1, …, P]` — each page fetched exactly once, page numbers
monotonically increasing from 1; the materialized sequence is exhausted
and pulling on it any number of times more changes nothing (no re-fetch
on re-iteration); and the result reads the total page count only from
page 1's metadata (it is unchanged under any change of the later pages'
`totalPages` attributes). -/
theorem claim_C2_depagination {α : Type} (fetch : Nat → Page α)
    (hP : 1 ≤ (fetch 1).totalPages) :
    (depagAsList fetch).cached = pageJoin fetch 1 (fetch 1).totalPages ∧
    (depagAsList fetch).fetchLog = List.range' 1 (fetch 1).totalPages ∧
    (depagAsList fetch).exhausted = true ∧
    (∀ m, depagRun fetch m (depagAsList fetch) = depagAsList fetch) ∧
    (∀ fetch' : Nat → Page α, (∀ p, (fetch' p).items = (fetch p).items) →
      (fetch' 1).totalPages = (fetch 1).totalPages →
      depagAsList fetch' = depagAsList fetch) := by
  have hclosed := depagRun_closed_form fetch (fetch 1).totalPages hP (Nat.le_refl _)
  have hex : (depagRun fetch (fetch 1).totalPages DepagState.init).exhausted = true := by
    rw [hclosed]; simp
  have hAs : depagAsList fetch = depagRun fetch (fetch 1).totalPages DepagState.init := by
    unfold depagAsList
    rw [depagRun_succ, depagStep_exhausted fetch hex]
  refine ⟨?_, ?_, ?_, ?_, ?_⟩
  · rw [hAs, hclosed]
  · rw [hAs, hclosed]
  · rw [hAs, hex]
  · intro m
    exact depagRun_exhausted fetch m (hAs ▸ hex)
  · intro fetch' hitems htot
    have hP' : 1 ≤ (fetch' 1).totalPages := htot ▸ hP
    have hclosed' := depagRun_closed_form fetch' (fetch' 1).totalPages hP' (Nat.le_refl _)
    have hex' : (depagRun fetch' (fetch' 1).totalPages DepagState.init).exhausted = true := by
      rw [hclosed']; simp
    have hAs' : depagAsList fetch' =
        depagRun fetch' (fetch' 1).totalPages DepagState.init := by
      unfold depagAsList
      rw [depagRun_succ, depagStep_exhausted fetch' hex']
    rw [hAs', hAs, hclosed', hclosed, htot]
    have : pageJoin fetch' 1 (fetch 1).totalPages = pageJoin fetch 1 (fetch 1).totalPages := by
      unfold pageJoin
      rw [show (fun p => (fetch' p).items) = (fun p => (fetch p).items) from funext hitems]
    rw [this]

/-- The spec's stub fetch function: 3 pages of 2 items each. -/
def stubFetch : Nat → Page Nat := fun p => ⟨3, [2 * p, 2 * p + 1]⟩

/-- Witness for claim C2 at the stub fetch: all 6 items come back in page
order and the stub is fetched exactly at pages 1, 2, 3. -/
theorem claim_C2_depagination_witness :
    (depagAsList stubFetch).cached = pageJoin stubFetch 1 (stubFetch 1).totalPages ∧
    (depagAsList stubFetch).fetchLog = List.range' 1 (stubFetch 1).totalPages ∧
    (depagAsList stubFetch).cached = [2, 3, 4, 5, 6, 7] ∧
    (depagAsList stubFetch).fetchLog = [1, 2, 3] :=
  ⟨(claim_C2_depagination stubFetch (by decide)).1,
   (claim_C2_depagination stubFetch (by decide)).2.1, by decide, by decide⟩

/-- Modelled from the spec: the authenticate decorator (decorators.py, not
among the given sources).  With a usable authenticated session the wrapped
operation runs unchanged; without one it raises
AuthenticationRequiredError before the wrapped operation — and hence
before any fetch — runs.  The second component is the log of fetches
performed. -/
def authGate {α : Type} (hasSession : Bool) (op : Unit → α × List Nat) :
    Except LastfmError α × List Nat :=
  if hasSession then
    let r := op ()
    (.ok r.1, r.2)
  else (.error .authenticationRequired, [])

/-- user.py `User.get_recommended_events` / `User.recommended_artists`
(@authenticate @depaginate): a session-gated depaginated listing — the
gate runs before the first page fetch of the depagination. -/
def get_recommended_events {α : Type} (hasSession : Bool) (fetch : Nat → Page α) :
    Except LastfmError (DepagState α) × List Nat :=
  authGate hasSession (fun _ => (depagAsList fetch, (depagAsList fetch).fetchLog))

/-- Claim C3: a session-gated operation invoked without a usable
authenticated session raises AuthenticationRequiredError and performs
zero fetch calls — for a gated paginated listing not even the page-1
fetch is issued; with a session the gated listing is exactly the
depaginated listing.  `Library.add_track` (also @authenticate) likewise
raises without touching anything. -/
theorem claim_C3_auth_gate_short_circuit {α β γ δ : Type} (fetch : Nat → Page α) :
    get_recommended_events false fetch =
      (Except.error LastfmError.authenticationRequired, []) ∧
    (∀ op : Unit → α × List Nat,
      authGate false op = (Except.error LastfmError.authenticationRequired, [])) ∧
    get_recommended_events true fetch =
      (Except.ok (depagAsList fetch), (depagAsList fetch).fetchLog) ∧
    (∀ s : LibraryState β γ δ,
      Library.add_track false s = Except.error LastfmError.authenticationRequired) :=
  ⟨rfl, fun _ => rfl, rfl, fun _ => rfl⟩

/-- user.py `User.weekly_album_chart_list` (and the artist/track/tag
variants, line for line identical): iterate the reversed weekly chart
list and, for each week, try the per-week chart fetch, yielding its chart
and skipping the week on LastfmError (`except LastfmError: pass`). -/
def weeklyChartGen {ω χ : Type} (fetchChart : ω → Except LastfmError χ) :
    List ω → List χ
  | [] => []
  | wc :: rest =>
    match fetchChart wc with
    | .ok chart => chart :: weeklyChartGen fetchChart rest
    | .error _ => weeklyChartGen fetchChart rest

/-- user.py `User.weekly_album_chart_list` (@cached_property): build the
lazy list of weekly charts from the reversed `weekly_chart_list`. -/
def weekly_album_chart_list {ω χ : Type} (weeklyChartList : List ω)
    (fetchChart : ω → Except LastfmError χ) : List χ :=
  weeklyChartGen fetchChart weeklyChartList.reverse

/-- user.py `User.get_friends`: a plain fetch-and-parse call site with no
error handling of its own — whatever the fetch raises propagates
unmodified. -/
def get_friends {δ υ : Type} (parse : δ → List υ)
    (fetchResult : Except LastfmError δ) : Except LastfmError (List υ) :=
  match fetchResult with
  | .ok d => .ok (parse d)
  | .error e => .error e

/-- user.py `User.Library.get_tracks` (@depaginate): the pages from `p`
onwards, stopping at the first failing fetch — the generator body is
wrapped in `try … except LastfmError: return`, so a failure silently ends
the listing. -/
def libTracksFrom {α : Type} (fetch : Nat → Except LastfmError (Page α))
    (total : Nat) : Nat → Nat → List α
  | 0, _ => []
  | fuel + 1, p =>
    if total < p then []
    else
      match fetch p with
      | .error _ => []
      | .ok pg => pg.items ++ libTracksFrom fetch total fuel (p + 1)

/-- user.py `User.Library.get_tracks` (identically `get_albums`,
`get_artists`): materialize the library listing; a failing page-1 fetch
is caught by the body's `except LastfmError: return` and yields an empty
listing, a later failure truncates it — no error ever escapes. -/
def library_get_tracks {α : Type} (fetch : Nat → Except LastfmError (Page α)) :
    Except LastfmError (List α) :=
  match fetch 1 with
  | .error _ => .ok []
  | .ok pg1 => .ok (pg1.items ++ libTracksFrom fetch pg1.totalPages pg1.totalPages 2)

/-- Claim C4 counterexample: at the call site `User.Library.get_tracks` —
not one of the weekly chart list aggregations — a FetchError raised by
the collaborator's fetch does not propagate: the listing comes back as a
successful empty result. -/
theorem claim_C4_fetch_error_counterexample :
    library_get_tracks (fun _ => Except.error LastfmError.operationFailed) =
      Except.ok ([] : List Nat) ∧
    (Except.ok ([] : List Nat) ≠
      (Except.error LastfmError.operationFailed : Except LastfmError (List Nat))) :=
  ⟨rfl, fun h => Except.noConfusion h⟩

theorem weeklyChartGen_eq_filterMap {ω χ : Type}
    (fetchChart : ω → Except LastfmError χ) (l : List ω) :
    weeklyChartGen fetchChart l = l.filterMap (fun wc => (fetchChart wc).toOption) := by
  induction l with
  | nil => rfl
  | cons wc rest ih =>
    cases hfc : fetchChart wc with
    | ok chart => simp [weeklyChartGen, hfc, ih, Except.toOption]
    | error e => simp [weeklyChartGen, hfc, ih, Except.toOption]

/-- Claim C4 (amended): a FetchError propagates unmodified at plain call
sites (`get_friends`); within the week-by-week chart list aggregations
failed weeks are omitted and the aggregate contains exactly the
successful weeks' charts in order, with no error raised; and additionally
the library's depaginated listings (`get_tracks`, and identically
`get_albums`/`get_artists`) swallow a FetchError too, ending the listing
at the failure point instead of raising. -/
theorem claim_C4_fetch_error_policy {ω χ δ υ α : Type}
    (fetchChart : ω → Except LastfmError χ) (wcl : List ω)
    (parse : δ → List υ) (e : LastfmError)
    (fetch : Nat → Except LastfmError (Page α)) :
    weekly_album_chart_list wcl fetchChart =
      (wcl.reverse).filterMap (fun wc => (fetchChart wc).toOption) ∧
    get_friends parse (.error e) = .error e ∧
    (∃ l, library_get_tracks fetch = Except.ok l) := by
  refine ⟨weeklyChartGen_eq_filterMap fetchChart wcl.reverse, rfl, ?_⟩
  cases hf : fetch 1 with
  | ok pg1 =>
    exact ⟨pg1.items ++ libTracksFrom fetch pg1.totalPages pg1.totalPages 2,
      by simp [library_get_tracks, hf]⟩
  | error err => exact ⟨[], by simp [library_get_tracks, hf]⟩

end Lastfm
